import Mathlib

/-!
Verification of the extraction engine of the OverFlow guest-count scraper
(`app/scraper.py`).  The Python module is shallowly embedded over `List Char`:
pure parsing helpers become Lean functions, the regular expressions used by the
module are hand-translated into deterministic/backtracking matchers with
Python `re` leftmost-match semantics, and the effectful orchestrator becomes a
function over an explicit world record (HTTP outcome, feed events, debug-write
outcome).  Machine integers are `Nat`/`Int`; fallible code returns
`Option`/`Except`.

Modelling notes (restrictions of the embedding, stated once here):
* Regex `\d`/`[0-9]` digit classes are modelled as ASCII `0-9` (the page is
  German municipal HTML; Unicode digits never occur in the analysed inputs).
* `html.unescape` is modelled by the CPython charref algorithm restricted to a
  representative named-entity table plus decimal/hex numeric references; the
  full HTML5 entity table and the Windows-1252 remapping of invalid numeric
  references are omitted.
* `float(...)` string coercion is modelled on the decimal fragment
  (optional sign, digits, optional fraction), with truncation toward zero for
  the subsequent `int(...)`; exponents, underscores and `inf`/`nan` are
  omitted (they never occur in the feed payloads under analysis).
-/

/-- Python `str.isspace` / regex `\s` character set (Unicode whitespace as
recognised by CPython for `str` patterns). -/
def isPySpace (c : Char) : Bool :=
  let n := c.toNat
  (9 ≤ n && n ≤ 13) || n == 32 || (28 ≤ n && n ≤ 31) || n == 133 || n == 160 ||
  n == 5760 || (8192 ≤ n && n ≤ 8202) || n == 8232 || n == 8233 ||
  n == 8239 || n == 8287 || n == 12288

/-- ASCII digit test: regex `[0-9]` and the `\d` class as used by the scraper
patterns (ASCII restriction, see header). -/
def isAsciiDigit (c : Char) : Bool :=
  48 ≤ c.toNat && c.toNat ≤ 57

/-- Lower-casing used to model `re.IGNORECASE` matching for the characters
appearing in the scraper's patterns (ASCII letters plus `Ä`, `Ö`, `Ü`). -/
def pyLower (c : Char) : Char :=
  let n := c.toNat
  if 65 ≤ n && n ≤ 90 then Char.ofNat (n + 32)
  else if n == 196 then Char.ofNat 228
  else if n == 214 then Char.ofNat 246
  else if n == 220 then Char.ofNat 252
  else c

/-- Value of a digit run, as Python `int(<digits>)`. -/
def digitsToNat (ds : List Char) : Nat :=
  ds.foldl (fun acc c => acc * 10 + (c.toNat - 48)) 0

def isHexDigit (c : Char) : Bool :=
  isAsciiDigit c || (97 ≤ (pyLower c).toNat && (pyLower c).toNat ≤ 102)

def hexDigitVal (c : Char) : Nat :=
  if isAsciiDigit c then c.toNat - 48 else (pyLower c).toNat - 87

def hexToNat (ds : List Char) : Nat :=
  ds.foldl (fun acc c => acc * 16 + hexDigitVal c) 0

/-- Split `l` at its first `>`: `splitAtGtChar l = some (b, a)` iff
`l = b ++ '>' :: a` with no `>` in `b`. -/
def splitAtGtChar : List Char → Option (List Char × List Char)
  | [] => none
  | c :: rest =>
    if c = '>' then some ([], rest)
    else
      match splitAtGtChar rest with
      | some (b, a) => some (c :: b, a)
      | none => none

/-- Fuelled engine for `re.sub(r"<[^>]+>", " ", html)`: at a `<` whose first
following `>` is at distance at least 2, the whole `<...>` span becomes one
space; a `<` with no such `>` (or an immediate `<>`) is literal text.  Fuel is
the input length (each step consumes at least one character). -/
def stripTagsFuel : Nat → List Char → List Char
  | 0, l => l
  | _ + 1, [] => []
  | fuel + 1, c :: rest =>
    if c = '<' then
      match splitAtGtChar rest with
      | some (b, a) => if b.isEmpty then c :: stripTagsFuel fuel rest else ' ' :: stripTagsFuel fuel a
      | none => c :: stripTagsFuel fuel rest
    else c :: stripTagsFuel fuel rest

/-- `re.sub(r"<[^>]+>", " ", html)` of `_extract_visible_text`. -/
def stripTags (l : List Char) : List Char :=
  stripTagsFuel l.length l

/-- State-machine form of `re.sub(r"\s+", " ", text)`: every maximal run of
whitespace becomes a single space.  The flag records whether the previous
character belonged to a whitespace run. -/
def collapseWsAux : Bool → List Char → List Char
  | _, [] => []
  | prevSpace, c :: rest =>
    if isPySpace c then
      if prevSpace then collapseWsAux true rest
      else ' ' :: collapseWsAux true rest
    else c :: collapseWsAux false rest

/-- `re.sub(r"\s+", " ", text)` of `_extract_visible_text`. -/
def collapseWs (l : List Char) : List Char :=
  collapseWsAux false l

/-- Named-entity table for the `html.unescape` model (subset of CPython's
`html5` dict; entries both with and without the trailing semicolon, exactly as
in that dict). -/
def namedTable : List (List Char × List Char) :=
  [(("amp;").data, ("&").data), (("amp").data, ("&").data),
   (("lt;").data, ("<").data), (("lt").data, ("<").data),
   (("gt;").data, (">").data), (("gt").data, (">").data),
   (("quot;").data, ("\"").data), (("quot").data, ("\"").data),
   (("apos;").data, [Char.ofNat 39]),
   (("nbsp;").data, [Char.ofNat 160]), (("nbsp").data, [Char.ofNat 160]),
   (("auml;").data, ("ä").data), (("auml").data, ("ä").data),
   (("Auml;").data, ("Ä").data), (("Auml").data, ("Ä").data),
   (("ouml;").data, ("ö").data), (("ouml").data, ("ö").data),
   (("uuml;").data, ("ü").data), (("uuml").data, ("ü").data),
   (("szlig;").data, ("ß").data), (("szlig").data, ("ß").data)]

def lookupEnt : List (List Char × List Char) → List Char → Option (List Char)
  | [], _ => none
  | (k, v) :: rest, s => if s = k then some v else lookupEnt rest s

/-- Characters allowed inside a named character reference: CPython's
`[^\t\n\f <&#;]`. -/
def isNameChar (c : Char) : Bool :=
  !(c = Char.ofNat 9 || c = Char.ofNat 10 || c = Char.ofNat 12 ||
    c = ' ' || c = '<' || c = '&' || c = '#' || c = ';')

/-- CPython `_replace_charref` longest-known-prefix fallback: try prefixes of
length `x`, `x-1`, ..., `2` against the entity table, appending the unmatched
suffix. -/
def tryPrefixLens : Nat → List Char → Option (List Char)
  | 0, _ => none
  | 1, _ => none
  | x + 2, s =>
    match lookupEnt namedTable (s.take (x + 2)) with
    | some v => some (v ++ s.drop (x + 2))
    | none => tryPrefixLens (x + 1) s

/-- Named-reference replacement per CPython `_replace_charref`: exact lookup of
the matched text (semicolon included when matched), else the longest known
prefix of length at least 2, else the literal `&` + text. -/
def replaceNamed (s : List Char) : List Char :=
  match lookupEnt namedTable s with
  | some v => v
  | none =>
    match tryPrefixLens (s.length - 1) s with
    | some v => v
    | none => '&' :: s

/-- Replacement character for a numeric reference: surrogates, zero and
out-of-range scalars map to U+FFFD as in CPython (Windows-1252 remapping
omitted, see header). -/
def numCharrefRepl (n : Nat) : List Char :=
  if n = 0 || (55296 ≤ n && n ≤ 57343) || 1114111 < n then [Char.ofNat 65533]
  else [Char.ofNat n]

def eatSemi : List Char → List Char
  | ';' :: r => r
  | l => l

/-- Match a character reference immediately after a `&`, per CPython's
`_charref` regex `(#[0-9]+;?|#[xX][0-9a-fA-F]+;?|[^\t\n\f <&#;]{1,32};?)`;
returns the replacement text and the remaining input. -/
def matchCharref (s : List Char) : Option (List Char × List Char) :=
  match s with
  | [] => none
  | c :: rest =>
    if c = '#' then
      match rest with
      | [] => none
      | x :: rest2 =>
        if isAsciiDigit x then
          let ds := (x :: rest2).takeWhile isAsciiDigit
          some (numCharrefRepl (digitsToNat ds), eatSemi ((x :: rest2).drop ds.length))
        else if x = 'x' || x = 'X' then
          let ds := rest2.takeWhile isHexDigit
          if ds = [] then none
          else some (numCharrefRepl (hexToNat ds), eatSemi (rest2.drop ds.length))
        else none
    else
      let nm := (s.takeWhile isNameChar).take 32
      if nm = [] then none
      else
        match s.drop nm.length with
        | ';' :: rem2 => some (replaceNamed (nm ++ [';']), rem2)
        | rem => some (replaceNamed nm, rem)

/-- Fuelled engine for `html.unescape`: scan for `&`, replace a matched
character reference (continuing after it, replacements are not rescanned),
leave an unmatched `&` literal.  Fuel is the input length. -/
def pyUnescapeFuel : Nat → List Char → List Char
  | 0, l => l
  | _ + 1, [] => []
  | fuel + 1, c :: rest =>
    if c = '&' then
      match matchCharref rest with
      | some (repl, remaining) => repl ++ pyUnescapeFuel fuel remaining
      | none => c :: pyUnescapeFuel fuel rest
    else c :: pyUnescapeFuel fuel rest

/-- `html.unescape` model (see header for the entity-table restriction). -/
def pyUnescape (l : List Char) : List Char :=
  pyUnescapeFuel l.length l

/-- Python `str.strip()`: remove leading and trailing Unicode whitespace. -/
def pyStrip (l : List Char) : List Char :=
  ((l.dropWhile isPySpace).reverse.dropWhile isPySpace).reverse

/-- `_extract_visible_text`: tags to spaces, whitespace collapsed, entities
decoded, ends trimmed. -/
def extract_visible_text (html : List Char) : List Char :=
  pyStrip (pyUnescape (collapseWs (stripTags html)))

/-- Match a literal case-insensitively (models `re.IGNORECASE` on a literal);
returns the remaining input on success. -/
def eatLitCI : List Char → List Char → Option (List Char)
  | [], s => some s
  | _ :: _, [] => none
  | c :: cs, a :: as => if pyLower a = pyLower c then eatLitCI cs as else none

/-- Match a literal exactly (case-sensitive patterns). -/
def eatLit : List Char → List Char → Option (List Char)
  | [], s => some s
  | _ :: _, [] => none
  | c :: cs, a :: as => if a = c then eatLit cs as else none

/-- `(\d+)` with nothing competing for digits: maximal nonempty ASCII digit
run, returning `(digits, rest)`. -/
def eatDigits1 (s : List Char) : Option (List Char × List Char) :=
  let ds := s.takeWhile isAsciiDigit
  if ds = [] then none else some (ds, s.drop ds.length)

/-- `\s+` followed by a non-space continuation: maximal nonempty whitespace
run (greedy, no backtracking needed since the scraper's patterns follow it
with a non-space character). -/
def eatWs1 (s : List Char) : Option (List Char) :=
  match s with
  | [] => none
  | c :: rest => if isPySpace c then some (rest.dropWhile isPySpace) else none

/-- Greedy `[^>]*` with full backtracking: consume the longest run of
non-`>` characters whose continuation `k` succeeds (longest first, exactly
Python's greedy-star semantics). -/
def starNonGt (k : List Char → Option α) : List Char → Option α
  | [] => k []
  | c :: rest =>
    if c = '>' then k (c :: rest)
    else
      match starNonGt k rest with
      | some a => some a
      | none => k (c :: rest)

/-- One of `"` or `'`: the `["']` class. -/
def eatQuote (s : List Char) : Option (List Char) :=
  match s with
  | [] => none
  | c :: rest => if c = '"' || c = Char.ofNat 39 then some rest else none

/-- Attempt of `COUNT_ID_PATTERN`
`<td[^>]*id=["']SSD-(?:\d+)_visitornumber["'][^>]*>\s*(\d+)\s*<`
(IGNORECASE) at the current position; returns the captured digit run. -/
def matchCountIdAt (s : List Char) : Option (List Char) :=
  (eatLitCI (("<td").data) s).bind fun r1 =>
  starNonGt (fun r2 =>
    (eatLitCI (("id=").data) r2).bind fun r3 =>
    (eatQuote r3).bind fun r4 =>
    (eatLitCI (("ssd-").data) r4).bind fun r5 =>
    (eatDigits1 r5).bind fun p5 =>
    (eatLitCI (("_visitornumber").data) p5.2).bind fun r6 =>
    (eatQuote r6).bind fun r7 =>
    starNonGt (fun r8 =>
      match r8 with
      | '>' :: r9 =>
        (eatDigits1 (r9.dropWhile isPySpace)).bind fun p9 =>
        match p9.2.dropWhile isPySpace with
        | '<' :: _ => some p9.1
        | _ => none
      | _ => none) r7) r1

/-- Leftmost `re.search` of `COUNT_ID_PATTERN` over the raw HTML, returning
the captured digit run of the first matching start position. -/
def COUNT_ID_PATTERN_search : List Char → Option (List Char)
  | [] => none
  | c :: rest =>
    match matchCountIdAt (c :: rest) with
    | some ds => some ds
    | none => COUNT_ID_PATTERN_search rest

/-- Attempt of `COUNT_PATTERN` `Anzahl\s+G[äa]ste[^0-9]*(\d+)` (IGNORECASE) at
the current position; returns the count value and the input remaining after
the match end (the digit capture is the final element, so the remainder starts
exactly at `match.end()`). -/
def matchCountAt (s : List Char) : Option (Nat × List Char) :=
  (eatLitCI (("anzahl").data) s).bind fun r1 =>
  (eatWs1 r1).bind fun r2 =>
  (eatLitCI (("g").data) r2).bind fun r3 =>
  (match r3 with
   | [] => none
   | c :: rest => if pyLower c = 'ä' || pyLower c = 'a' then some rest else none).bind fun r4 =>
  (eatLitCI (("ste").data) r4).bind fun r5 =>
  (eatDigits1 (r5.dropWhile (fun c => !isAsciiDigit c))).bind fun p =>
  some (digitsToNat p.1, p.2)

/-- Leftmost `re.search` of `COUNT_PATTERN` over the normalized text. -/
def COUNT_PATTERN_search : List Char → Option (Nat × List Char)
  | [] => none
  | c :: rest =>
    match matchCountAt (c :: rest) with
    | some r => some r
    | none => COUNT_PATTERN_search rest

/-- Core alternation `(?:Kapazit[aä]t|von)\s*(\d+)` of `CAPACITY_PATTERN`
(IGNORECASE), tried in pattern order at the current position. -/
def matchCapacityCore (s : List Char) : Option Nat :=
  let after : List Char → Option Nat := fun r =>
    (eatDigits1 (r.dropWhile isPySpace)).map fun p => digitsToNat p.1
  match (eatLitCI (("kapazit").data) s).bind (fun r =>
          (match r with
           | [] => none
           | c :: rest => if pyLower c = 'a' || pyLower c = 'ä' then some rest else none).bind
          fun r2 => eatLitCI (("t").data) r2) with
  | some r => after r
  | none => (eatLitCI (("von").data) s).bind after

/-- Attempt of `CAPACITY_PATTERN` `(?:max\.?\s*)?(?:Kapazit[aä]t|von)\s*(\d+)`
(IGNORECASE) at the current position, with the greedy optional prefix tried
dot-first, then dotless, then absent. -/
def matchCapacityAt (s : List Char) : Option Nat :=
  match eatLitCI (("max").data) s with
  | some r =>
    let withDot :=
      match r with
      | '.' :: r2 => matchCapacityCore (r2.dropWhile isPySpace)
      | _ => none
    match withDot with
    | some v => some v
    | none =>
      match matchCapacityCore (r.dropWhile isPySpace) with
      | some v => some v
      | none => matchCapacityCore s
  | none => matchCapacityCore s

/-- Leftmost `re.search` of `CAPACITY_PATTERN` over a text slice. -/
def CAPACITY_PATTERN_search : List Char → Option Nat
  | [] => none
  | c :: rest =>
    match matchCapacityAt (c :: rest) with
    | some v => some v
    | none => CAPACITY_PATTERN_search rest

/-- Attempt of `UID_IN_MARKUP_PATTERN` `(SSD-\d+)_visitornumber`
(case-sensitive) at the current position; returns the captured token. -/
def matchUidAt (s : List Char) : Option (List Char) :=
  (eatLit (("SSD-").data) s).bind fun r1 =>
  (eatDigits1 r1).bind fun p =>
  (eatLit (("_visitornumber").data) p.2).map fun _ =>
  ("SSD-").data ++ p.1

/-- Leftmost `re.search` of `UID_IN_MARKUP_PATTERN` over the raw HTML. -/
def UID_IN_MARKUP_PATTERN_search : List Char → Option (List Char)
  | [] => none
  | c :: rest =>
    match matchUidAt (c :: rest) with
    | some u => some u
    | none => UID_IN_MARKUP_PATTERN_search rest

/-- `_extract_uid_from_html`. -/
def extract_uid_from_html (html : List Char) : Option (List Char) :=
  UID_IN_MARKUP_PATTERN_search html

/-- Python `str.find` for a nonempty needle: index of the first occurrence,
`none` for `-1`. -/
def findSubAux (pat : List Char) : List Char → Nat → Option Nat
  | [], i => if pat = [] then some i else none
  | c :: rest, i =>
    if pat.isPrefixOf (c :: rest) then some i else findSubAux pat rest (i + 1)

def findSub (pat s : List Char) : Option Nat :=
  findSubAux pat s 0

/-- Result type of the extraction engine: `GuestCount` without the
`timestamp` field (the code stamps `datetime.now(utc)`, a wall-clock effect
outside the embedding; `count` and `capacity` carry all parsed content). -/
structure GuestCount where
  count : Int
  capacity : Option Int
deriving DecidableEq, Repr

def notFoundMsg : String := "Could not find guest count in page"

/-- `_parse_guest_count`: Strategy A (`COUNT_ID_PATTERN` on raw HTML) first,
else Strategy B (`COUNT_PATTERN` on the normalized text), else the NotFound
error; then the best-effort `CAPACITY_PATTERN` search over the
100-character slice positioned per the code. -/
def parse_guest_count (html : List Char) : Except String GuestCount :=
  let text := extract_visible_text html
  match COUNT_ID_PATTERN_search html with
  | some ds =>
    let count := digitsToNat ds
    let slice :=
      match findSub (Nat.repr count).data text with
      | some i => (text.drop i).take 100
      | none => text
    Except.ok ⟨(count : Int), (CAPACITY_PATTERN_search slice).map Int.ofNat⟩
  | none =>
    match COUNT_PATTERN_search text with
    | some p =>
      Except.ok ⟨(p.1 : Int), (CAPACITY_PATTERN_search (p.2.take 100)).map Int.ofNat⟩
    | none => Except.error notFoundMsg

instance {ε α : Type} [DecidableEq ε] [DecidableEq α] : DecidableEq (Except ε α) := fun x y =>
  match x, y with
  | Except.ok a, Except.ok b =>
    if h : a = b then Decidable.isTrue (by rw [h])
    else Decidable.isFalse (fun hh => h (Except.ok.inj hh))
  | Except.error a, Except.error b =>
    if h : a = b then Decidable.isTrue (by rw [h])
    else Decidable.isFalse (fun hh => h (Except.error.inj hh))
  | Except.ok _, Except.error _ => Decidable.isFalse (fun hh => Except.noConfusion hh)
  | Except.error _, Except.ok _ => Decidable.isFalse (fun hh => Except.noConfusion hh)

/-- JSON values as produced by `json.loads` (numbers as `Int`: the feed sends
integral fills; the float-vs-int distinction of Python numbers is immaterial
to the truncating coercion below). -/
inductive Json where
  | null : Json
  | bool (b : Bool) : Json
  | num (n : Int) : Json
  | str (s : List Char) : Json
  | arr (xs : List Json) : Json
  | obj (fields : List (List Char × Json)) : Json

/-- `dict.get`: first binding of the key (`json.loads` objects have unique
keys), `none` when absent — Python `None`. -/
def jsonGet : List (List Char × Json) → List Char → Option Json
  | [], _ => none
  | (k, v) :: rest, key => if k = key then some v else jsonGet rest key

/-- Python `float(<str>)` followed by `int(...)`, on the decimal fragment
(see header): surrounding whitespace, optional sign, digits with at most one
dot and at least one digit; truncation toward zero. -/
def pyFloatStrToInt (s : List Char) : Option Int :=
  let t := ((s.dropWhile isPySpace).reverse.dropWhile isPySpace).reverse
  let core : List Char → Option Nat := fun u =>
    let ip := u.takeWhile isAsciiDigit
    match u.drop ip.length with
    | [] => if ip = [] then none else some (digitsToNat ip)
    | '.' :: fp =>
      if fp.all isAsciiDigit && !(ip = [] && fp = []) then some (digitsToNat ip) else none
    | _ => none
  match t with
  | '-' :: u => (core u).map fun n => -(n : Int)
  | '+' :: u => (core u).map fun n => (n : Int)
  | u => (core u).map fun n => (n : Int)

/-- `int(float(x))` on a JSON field value: numbers pass through, booleans are
`1`/`0` (Python `float(True)` is `1.0`), numeric strings are parsed, and
`null`/arrays/objects raise — modelled as `none`. -/
def pyFloatThenInt : Json → Option Int
  | Json.num n => some n
  | Json.bool b => some (if b then 1 else 0)
  | Json.str s => pyFloatStrToInt s
  | _ => none

/-- `int(float(item.get(key)))` with a missing key raising (Python
`float(None)`). -/
def coerceField (o : Option Json) : Option Int :=
  match o with
  | none => none
  | some v => pyFloatThenInt v

/-- The record-is-a-match condition of `_recv_once`: the item is a dict whose
`uid` field equals the requested identifier. -/
def itemUidMatches (uid : List Char) : Json → Bool
  | Json.obj fields =>
    match jsonGet fields (("uid").data) with
    | some (Json.str s) => s = uid
    | _ => false
  | _ => false

/-- The per-frame record scan of `_recv_once`: first dict whose `uid` matches;
`currentfill` must coerce or the function returns `None` for the whole frame
(the code's `return None` inside the loop); `maxspace` missing, `null` or
uncoercible yields an unset capacity. -/
def wsScanItems (uid : List Char) : List Json → Option (Int × Option Int)
  | [] => none
  | item :: rest =>
    match item with
    | Json.obj fields =>
      if itemUidMatches uid (Json.obj fields) then
        match coerceField (jsonGet fields (("currentfill").data)) with
        | none => none
        | some c =>
          let cap :=
            match jsonGet fields (("maxspace").data) with
            | none => none
            | some Json.null => none
            | some v => pyFloatThenInt v
          some (c, cap)
      else wsScanItems uid rest
    | _ => wsScanItems uid rest

/-- `_recv_once` applied to one successfully parsed frame: non-array payloads
yield `None`; arrays are scanned. -/
def ws_recv_once (uid : List Char) : Json → Option (Int × Option Int)
  | Json.arr items => wsScanItems uid items
  | _ => none

/-- One receive attempt of the feed session, as seen by the client:
either a frame that parsed as JSON, or a failure (connection error, JSON
parse error, or the 10-second `asyncio.wait_for` timeout — all raise and are
mapped to the same `GuestCountError` by the handler). -/
inductive RecvEvent where
  | frame (j : Json) : RecvEvent
  | fail : RecvEvent

def wsFailedMsg : String := "Failed to fetch guest count via WebSocket"

def wsNotFoundMsg : String := "Could not find guest count in WebSocket stream"

/-- The receive loop of `_fetch_count_via_websocket`: one initial receive plus
`range(2)` retries (budget 3); a failing receive aborts with the WebSocket
error, an exhausted event stream means a receive that never completes
(timeout), and an exhausted budget raises the stream-NotFound error. -/
def wsGo (uid : List Char) : Nat → List RecvEvent → Except String (Int × Option Int)
  | 0, _ => Except.error wsNotFoundMsg
  | _ + 1, [] => Except.error wsFailedMsg
  | _ + 1, RecvEvent.fail :: _ => Except.error wsFailedMsg
  | n + 1, RecvEvent.frame j :: rest =>
    match ws_recv_once uid j with
    | some r => Except.ok r
    | none => wsGo uid n rest

/-- The per-frame receive timeout passed to `asyncio.wait_for` (seconds). -/
def recvTimeoutSeconds : Nat := 10

/-- A feed session: the frames the client sent, and its outcome. -/
structure WsSession where
  sent : List String
  result : Except String (Int × Option Int)
deriving DecidableEq

/-- `_fetch_count_via_websocket`: send the single snapshot request `"all"`,
then run the 3-attempt receive loop. -/
def fetch_count_via_websocket (uid : List Char) (events : List RecvEvent) : WsSession :=
  ⟨[("all")], wsGo uid 3 events⟩

def fetchFailedMsg : String := "Failed to fetch guest count"

/-- `_maybe_dump_html_for_debug`: a best-effort write whose success and
failure branches both fall through (`except Exception: logger.debug(...)`). -/
def maybe_dump_html_for_debug (_html : List Char) (writeOk : Bool) : Unit :=
  if writeOk then () else ()

/-- The world one invocation of the orchestrator observes: the HTTP outcome
(`Except.error` = transport error or `raise_for_status` on a non-2xx status),
the feed events the fallback would receive, and whether the debug write would
succeed. -/
structure FetchWorld where
  httpResult : Except Unit (List Char)
  wsEvents : List RecvEvent
  dumpOk : Bool

/-- `fetch_guest_count_async`: fetch, parse, and on parse failure recover the
uid and fall back to the feed; an HTTP failure maps to the fetch error before
any of that. -/
def fetch_guest_count_async (w : FetchWorld) : Except String GuestCount :=
  match w.httpResult with
  | Except.error _ => Except.error fetchFailedMsg
  | Except.ok html =>
    match parse_guest_count html with
    | Except.ok gc => Except.ok gc
    | Except.error msg =>
      match extract_uid_from_html html with
      | none =>
        let _ := maybe_dump_html_for_debug html w.dumpOk
        Except.error msg
      | some uid =>
        match (fetch_count_via_websocket uid w.wsEvents).result with
        | Except.ok p => Except.ok ⟨p.1, p.2⟩
        | Except.error m => Except.error m

/-- Feed record whose `uid` matches but whose `currentfill` does not coerce
(used to probe the per-frame scan). -/
def wsFieldsBad : List (List Char × Json) :=
  [((("uid").data), Json.str (("SSD-4").data)),
   ((("currentfill").data), Json.str (("abc").data))]

/-- Feed record whose `uid` matches with a coercible `currentfill` and no
`maxspace`. -/
def wsFieldsGood : List (List Char × Json) :=
  [((("uid").data), Json.str (("SSD-4").data)),
   ((("currentfill").data), Json.str (("50").data))]

/-- A frame that parses as a JSON array but contains no matching record. -/
def wsEmptyFrame : Json := Json.arr []

/-- A record carrying the requested uid with string-encoded numeric fields. -/
def wsMatchItem : Json :=
  Json.obj [((("uid").data), Json.str (("SSD-4").data)),
            ((("currentfill").data), Json.str (("42").data)),
            ((("maxspace").data), Json.str (("100").data))]

/-- A frame containing exactly the matching record. -/
def wsMatchFrame : Json := Json.arr [wsMatchItem]

theorem dropWhileIdem (p : Char → Bool) (l : List Char) :
    (l.dropWhile p).dropWhile p = l.dropWhile p := by
  induction l with
  | nil => rfl
  | cons c rest ih =>
    by_cases h : p c
    · simp [List.dropWhile_cons, h, ih]
    · simp [List.dropWhile_cons, h]

theorem dropWhileConsFix {p : Char → Bool} {c : Char} {xs : List Char}
    (h : (c :: xs).dropWhile p = c :: xs) : p c = false := by
  by_contra hpc
  have hpc' : p c = true := by
    cases hp : p c
    · exact absurd hp hpc
    · rfl
  rw [List.dropWhile_cons, if_pos hpc'] at h
  have hlen : (xs.dropWhile p).length = xs.length + 1 := by
    rw [h]; rfl
  have hle : (xs.dropWhile p).length ≤ xs.length :=
    (List.dropWhile_sublist (p := p) (l := xs)).length_le
  omega

theorem dropWhileRevFix (p : Char → Bool) (A : List Char) (hA : A.dropWhile p = A) :
    ((A.reverse.dropWhile p).reverse).dropWhile p = (A.reverse.dropWhile p).reverse := by
  have hsplit : A.reverse.takeWhile p ++ A.reverse.dropWhile p = A.reverse :=
    List.takeWhile_append_dropWhile p A.reverse
  have htA : (A.reverse.dropWhile p).reverse ++ (A.reverse.takeWhile p).reverse = A := by
    rw [← List.reverse_append, hsplit, List.reverse_reverse]
  cases hc : (A.reverse.dropWhile p).reverse with
  | nil => rfl
  | cons c t' =>
    have hAeq : c :: (t' ++ (A.reverse.takeWhile p).reverse) = A := by
      rw [hc] at htA; exact htA
    have hAc : (c :: (t' ++ (A.reverse.takeWhile p).reverse)).dropWhile p
        = c :: (t' ++ (A.reverse.takeWhile p).reverse) := by
      rw [hAeq]; exact hA
    have hpcf : p c = false := dropWhileConsFix hAc
    rw [List.dropWhile_cons, if_neg (by simp [hpcf])]

theorem pyStripIdem (l : List Char) : pyStrip (pyStrip l) = pyStrip l := by
  unfold pyStrip
  rw [dropWhileRevFix isPySpace (l.dropWhile isPySpace) (dropWhileIdem _ l),
    List.reverse_reverse, dropWhileIdem]

theorem stripTagsFuelNoLt (fuel : Nat) :
    ∀ l : List Char, l.length ≤ fuel → (∀ c ∈ l, c ≠ '<') → stripTagsFuel fuel l = l := by
  induction fuel with
  | zero => intro l _ _; rfl
  | succ n ih =>
    intro l hlen h
    cases l with
    | nil => rfl
    | cons c rest =>
      have hc : ¬(c = '<') := h c (List.mem_cons_self c rest)
      simp only [stripTagsFuel, if_neg hc]
      have hrest : stripTagsFuel n rest = rest := by
        refine ih rest ?_ (fun d hd => h d (List.mem_cons_of_mem c hd))
        simpa [List.length_cons] using Nat.le_of_succ_le_succ hlen
      rw [hrest]

theorem stripTagsNoLt (l : List Char) (h : ∀ c ∈ l, c ≠ '<') : stripTags l = l :=
  stripTagsFuelNoLt l.length l (Nat.le_refl _) h

theorem pyUnescapeFuelNoAmp (fuel : Nat) :
    ∀ l : List Char, l.length ≤ fuel → (∀ c ∈ l, c ≠ '&') → pyUnescapeFuel fuel l = l := by
  induction fuel with
  | zero => intro l _ _; rfl
  | succ n ih =>
    intro l hlen h
    cases l with
    | nil => rfl
    | cons c rest =>
      have hc : ¬(c = '&') := h c (List.mem_cons_self c rest)
      simp only [pyUnescapeFuel, if_neg hc]
      have hrest : pyUnescapeFuel n rest = rest := by
        refine ih rest ?_ (fun d hd => h d (List.mem_cons_of_mem c hd))
        simpa [List.length_cons] using Nat.le_of_succ_le_succ hlen
      rw [hrest]

theorem pyUnescapeNoAmp (l : List Char) (h : ∀ c ∈ l, c ≠ '&') : pyUnescape l = l :=
  pyUnescapeFuelNoAmp l.length l (Nat.le_refl _) h

theorem matchUidAtNil : matchUidAt ([] : List Char) = none := by decide

theorem matchUidAtAll (l : List Char) (h : ∀ i, i < l.length → matchUidAt (l.drop i) = none) :
    ∀ i, matchUidAt (l.drop i) = none := by
  intro i
  by_cases hi : i < l.length
  · exact h i hi
  · rw [List.drop_eq_nil_of_le (Nat.le_of_not_lt hi)]
    exact matchUidAtNil

theorem wsGo_take (uid : List Char) (n : Nat) :
    ∀ events, wsGo uid n events = wsGo uid n (events.take n) := by
  induction n with
  | zero => intro ev; rfl
  | succ m ih =>
    intro ev
    cases ev with
    | nil => rfl
    | cons e rest =>
      cases e with
      | fail => rfl
      | frame j =>
        show (match ws_recv_once uid j with
              | some r => Except.ok r
              | none => wsGo uid m rest) =
             (match ws_recv_once uid j with
              | some r => Except.ok r
              | none => wsGo uid m (rest.take m))
        cases ws_recv_once uid j with
        | some r => rfl
        | none => exact ih rest

theorem wsGo_frame_none (uid : List Char) (j : Json) (rest : List RecvEvent) (n : Nat)
    (h : ws_recv_once uid j = none) :
    wsGo uid (n + 1) (RecvEvent.frame j :: rest) = wsGo uid n rest := by
  show (match ws_recv_once uid j with
        | some r => Except.ok r
        | none => wsGo uid n rest) = wsGo uid n rest
  rw [h]

theorem wsGo_frame_some (uid : List Char) (j : Json) (rest : List RecvEvent) (n : Nat)
    (r : Int × Option Int) (h : ws_recv_once uid j = some r) :
    wsGo uid (n + 1) (RecvEvent.frame j :: rest) = Except.ok r := by
  show (match ws_recv_once uid j with
        | some x => Except.ok x
        | none => wsGo uid n rest) = Except.ok r
  rw [h]

theorem wsScanItemsNoMatch (uid : List Char) :
    ∀ items, (∀ it ∈ items, itemUidMatches uid it = false) → wsScanItems uid items = none := by
  intro items
  induction items with
  | nil => intro _; rfl
  | cons item rest ih =>
    intro h
    have hm := h item (List.mem_cons_self item rest)
    have hrest := ih (fun it hit => h it (List.mem_cons_of_mem item hit))
    cases item with
    | obj fields =>
      simp only [wsScanItems, hm]
      exact hrest
    | null => exact hrest
    | bool b => exact hrest
    | num n => exact hrest
    | str s => exact hrest
    | arr xs => exact hrest

/-- Claim C1: `_parse_guest_count` applies Strategy A (the structured
`COUNT_ID_PATTERN` on the raw HTML) first and uses its captured digit run as
the count whenever it matches; Strategy B (`COUNT_PATTERN` on the normalized
text) is consulted only when Strategy A finds no match, its captured digit
run becoming the count; and on input "Anzahl Gäste aktuell: 58" the parsed
count is 58 with no capacity. -/
theorem claim_C1 :
    (∀ html ds, COUNT_ID_PATTERN_search html = some ds →
      ∃ cap, parse_guest_count html = Except.ok ⟨(digitsToNat ds : Int), cap⟩)
  ∧ (∀ html p, COUNT_ID_PATTERN_search html = none →
      COUNT_PATTERN_search (extract_visible_text html) = some p →
      parse_guest_count html =
        Except.ok ⟨(p.1 : Int), (CAPACITY_PATTERN_search (p.2.take 100)).map Int.ofNat⟩)
  ∧ parse_guest_count (("Anzahl Gäste aktuell: 58").data) = Except.ok ⟨58, none⟩ := by
  refine ⟨?_, ?_, by decide⟩
  · intro html ds h
    refine ⟨Option.map Int.ofNat (CAPACITY_PATTERN_search
      (match findSub (Nat.repr (digitsToNat ds)).data (extract_visible_text html) with
       | some i => ((extract_visible_text html).drop i).take 100
       | none => extract_visible_text html)), ?_⟩
    simp only [parse_guest_count, h]
  · intro html p h1 h2
    simp only [parse_guest_count, h1, h2]

/-- Witness for claim C1 at concrete inputs: a Strategy-A document and the
Strategy-B document of the claim's scenario. -/
theorem claim_C1_witness :
    (∃ cap, parse_guest_count (("<td id=\"SSD-4_visitornumber\">68</td> Kapazität 120").data) =
       Except.ok ⟨(digitsToNat (("68").data) : Int), cap⟩)
  ∧ parse_guest_count (("Anzahl Gäste aktuell: 58").data) =
      Except.ok ⟨(58 : Int), (CAPACITY_PATTERN_search (([] : List Char).take 100)).map Int.ofNat⟩ :=
  ⟨claim_C1.1 _ (("68").data) (by decide),
   claim_C1.2.1 _ ((58 : Nat), ([] : List Char)) (by decide) (by decide)⟩

/-- Claim C2: after either strategy succeeds the capacity is looked up with
`CAPACITY_PATTERN` only inside a slice of at most 100 characters of the
normalized text positioned at the located count occurrence (Strategy A: the
100-character slice starting at the first occurrence of the count's decimal
string; Strategy B: the 100-character slice starting right after the match
end); no match leaves the capacity unset without error; and
"Anzahl Gäste 73 von 250" parses to count 73, capacity 250. -/
theorem claim_C2 :
    (∀ html p, COUNT_ID_PATTERN_search html = none →
       COUNT_PATTERN_search (extract_visible_text html) = some p →
       parse_guest_count html =
         Except.ok ⟨(p.1 : Int), (CAPACITY_PATTERN_search (p.2.take 100)).map Int.ofNat⟩
       ∧ (p.2.take 100).length ≤ 100
       ∧ (CAPACITY_PATTERN_search (p.2.take 100) = none →
           parse_guest_count html = Except.ok ⟨(p.1 : Int), none⟩))
  ∧ (∀ html ds i, COUNT_ID_PATTERN_search html = some ds →
       findSub (Nat.repr (digitsToNat ds)).data (extract_visible_text html) = some i →
       parse_guest_count html =
         Except.ok ⟨(digitsToNat ds : Int),
           (CAPACITY_PATTERN_search
             (((extract_visible_text html).drop i).take 100)).map Int.ofNat⟩
       ∧ (((extract_visible_text html).drop i).take 100).length ≤ 100)
  ∧ parse_guest_count (("Anzahl Gäste 73 von 250").data) = Except.ok ⟨73, some 250⟩ := by
  refine ⟨?_, ?_, by decide⟩
  · intro html p h1 h2
    refine ⟨by simp only [parse_guest_count, h1, h2], ?_, ?_⟩
    · rw [List.length_take]; exact Nat.min_le_left _ _
    · intro hc
      simp only [parse_guest_count, h1, h2, hc]
      rfl
  · intro html ds i h1 h2
    constructor
    · simp only [parse_guest_count, h1, h2]
    · rw [List.length_take]; exact Nat.min_le_left _ _

/-- Witness for claim C2 at concrete inputs: the claim's Strategy-B scenario
and a Strategy-A document whose count is found at text index 0. -/
theorem claim_C2_witness :
    (parse_guest_count (("Anzahl Gäste 73 von 250").data) =
       Except.ok ⟨(73 : Int),
         (CAPACITY_PATTERN_search (((" von 250").data).take 100)).map Int.ofNat⟩
     ∧ (((" von 250").data).take 100).length ≤ 100
     ∧ (CAPACITY_PATTERN_search (((" von 250").data).take 100) = none →
         parse_guest_count (("Anzahl Gäste 73 von 250").data) = Except.ok ⟨(73 : Int), none⟩))
  ∧ (parse_guest_count (("<td id=\"SSD-4_visitornumber\">68</td> Kapazität 120").data) =
       Except.ok ⟨(digitsToNat (("68").data) : Int),
         (CAPACITY_PATTERN_search
           (((extract_visible_text
               (("<td id=\"SSD-4_visitornumber\">68</td> Kapazität 120").data)).drop 0).take 100)).map
           Int.ofNat⟩
     ∧ (((extract_visible_text
           (("<td id=\"SSD-4_visitornumber\">68</td> Kapazität 120").data)).drop 0).take 100).length
         ≤ 100) :=
  ⟨claim_C2.1 _ ((73 : Nat), (" von 250").data) (by decide) (by decide),
   claim_C2.2.1 _ (("68").data) 0 (by decide) (by decide)⟩

/-- Claim C3 (amended): the Text Normalizer `_extract_visible_text` is
idempotent on every input whose normalized output contains no `<`, no `&`,
and is already whitespace-collapsed; it is not idempotent in general, because
entity decoding runs after tag stripping and whitespace collapsing, so a
second pass reprocesses characters the first pass produced. -/
theorem claim_C3 (s : List Char)
    (h1 : ∀ c ∈ extract_visible_text s, c ≠ '<')
    (h2 : ∀ c ∈ extract_visible_text s, c ≠ '&')
    (h3 : collapseWs (extract_visible_text s) = extract_visible_text s) :
    extract_visible_text (extract_visible_text s) = extract_visible_text s := by
  conv_lhs => rw [extract_visible_text]
  rw [stripTagsNoLt _ h1, h3, pyUnescapeNoAmp _ h2]
  show pyStrip (pyStrip (pyUnescape (collapseWs (stripTags s)))) = _
  rw [pyStripIdem]
  rfl

/-- Counterexample for claim C3 as stated: normalizing "&amp;amp;" yields
"&amp;", and normalizing that output again yields "&", so the normalizer is
not idempotent on every string. -/
theorem claim_C3_counterexample :
    extract_visible_text (("&amp;amp;").data) = ("&amp;").data
  ∧ extract_visible_text (extract_visible_text (("&amp;amp;").data)) = ("&").data
  ∧ ¬ (extract_visible_text (extract_visible_text (("&amp;amp;").data)) =
       extract_visible_text (("&amp;amp;").data)) := by
  refine ⟨by decide, by decide, by decide⟩

/-- Witness for claim C3 at a concrete entity-free input. -/
theorem claim_C3_witness :
    extract_visible_text (extract_visible_text (("ab c").data)) =
      extract_visible_text (("ab c").data) :=
  claim_C3 (("ab c").data) (by decide) (by decide) (by decide)

/-- Claim C4 (amended): when `_recv_once` scans a JSON-array frame and finds a
record whose `uid` equals the requested identifier, it coerces `currentfill`
and `maxspace` through a float-then-int conversion accepting
numeric-as-string encodings; if `currentfill` fails to coerce, the whole
frame is treated as yielding no match — the scan returns immediately without
examining the remaining records; if `maxspace` fails to coerce or is null,
the capacity is unset rather than a failure. -/
theorem claim_C4 :
    (∀ uid fields rest, itemUidMatches uid (Json.obj fields) = true →
       coerceField (jsonGet fields (("currentfill").data)) = none →
       wsScanItems uid (Json.obj fields :: rest) = none)
  ∧ (∀ uid fields rest c, itemUidMatches uid (Json.obj fields) = true →
       coerceField (jsonGet fields (("currentfill").data)) = some c →
       wsScanItems uid (Json.obj fields :: rest) =
         some (c, match jsonGet fields (("maxspace").data) with
                  | none => none
                  | some Json.null => none
                  | some v => pyFloatThenInt v))
  ∧ (∀ uid item rest, itemUidMatches uid item = false →
       wsScanItems uid (item :: rest) = wsScanItems uid rest)
  ∧ pyFloatThenInt (Json.str (("123").data)) = some 123 := by
  refine ⟨?_, ?_, ?_, by decide⟩
  · intro uid fields rest hm hc
    simp only [wsScanItems, hm, if_true, hc]
  · intro uid fields rest c hm hc
    simp only [wsScanItems, hm, if_true, hc]
  · intro uid item rest hm
    cases item with
    | obj fields =>
      simp only [wsScanItems, hm]
      rfl
    | null => rfl
    | bool b => rfl
    | num n => rfl
    | str s => rfl
    | arr xs => rfl

/-- Counterexample for claim C4 as stated: in a frame holding a matching
record with an uncoercible `currentfill` followed by a matching record with a
coercible one, `_recv_once` returns no result for the frame — scanning does
not continue over the remaining records, although the remaining record alone
would have matched with count 50. -/
theorem claim_C4_counterexample :
    ws_recv_once (("SSD-4").data) (Json.arr [Json.obj wsFieldsBad, Json.obj wsFieldsGood]) = none
  ∧ wsScanItems (("SSD-4").data) [Json.obj wsFieldsGood] = some (50, none) := by
  refine ⟨by decide, by decide⟩

/-- Witness for claim C4 at concrete records. -/
theorem claim_C4_witness :
    wsScanItems (("SSD-4").data) (Json.obj wsFieldsBad :: [Json.obj wsFieldsGood]) = none
  ∧ wsScanItems (("SSD-4").data) (Json.obj wsFieldsGood :: []) = some (50, none)
  ∧ wsScanItems (("SSD-4").data) (Json.num 5 :: [Json.obj wsFieldsGood]) =
      wsScanItems (("SSD-4").data) [Json.obj wsFieldsGood] :=
  ⟨claim_C4.1 _ wsFieldsBad _ (by decide) (by decide),
   claim_C4.2.1 _ wsFieldsGood [] 50 (by decide) (by decide),
   claim_C4.2.2.1 _ (Json.num 5) [Json.obj wsFieldsGood] (by decide)⟩

/-- Claim C5: `_fetch_count_via_websocket` sends the single request frame
"all", consumes at most 3 receive events (the result over any event list
equals the result over its first 3 events), returns the `(count, capacity)`
pair of the first matching record — in particular when the uid appears only
in the second of three frames — and signals the stream-NotFound failure after
3 frames without a match with a valid count; the per-frame wait bound is the
10-second constant. -/
theorem claim_C5 :
    (∀ uid events, (fetch_count_via_websocket uid events).sent = [("all")])
  ∧ (∀ uid e1 e2 e3 rest, fetch_count_via_websocket uid (e1 :: e2 :: e3 :: rest) =
       fetch_count_via_websocket uid [e1, e2, e3])
  ∧ (∀ uid j1 j2 e3 rest r,
       ws_recv_once uid j1 = none → ws_recv_once uid j2 = some r →
       (fetch_count_via_websocket uid
         (RecvEvent.frame j1 :: RecvEvent.frame j2 :: e3 :: rest)).result = Except.ok r)
  ∧ (∀ uid j1 j2 j3 rest,
       ws_recv_once uid j1 = none → ws_recv_once uid j2 = none → ws_recv_once uid j3 = none →
       (fetch_count_via_websocket uid
         (RecvEvent.frame j1 :: RecvEvent.frame j2 :: RecvEvent.frame j3 :: rest)).result =
         Except.error wsNotFoundMsg)
  ∧ recvTimeoutSeconds = 10 := by
  refine ⟨?_, ?_, ?_, ?_, rfl⟩
  · intro uid events; rfl
  · intro uid e1 e2 e3 rest
    simp only [fetch_count_via_websocket]
    rw [wsGo_take uid 3 (e1 :: e2 :: e3 :: rest)]
    rfl
  · intro uid j1 j2 e3 rest r h1 h2
    show wsGo uid 3 _ = Except.ok r
    rw [show (3 : Nat) = 2 + 1 from rfl, wsGo_frame_none uid j1 _ 2 h1,
      show (2 : Nat) = 1 + 1 from rfl, wsGo_frame_some uid j2 _ 1 r h2]
  · intro uid j1 j2 j3 rest h1 h2 h3
    show wsGo uid 3 _ = Except.error wsNotFoundMsg
    rw [show (3 : Nat) = 2 + 1 from rfl, wsGo_frame_none uid j1 _ 2 h1,
      show (2 : Nat) = 1 + 1 from rfl, wsGo_frame_none uid j2 _ 1 h2,
      show (1 : Nat) = 0 + 1 from rfl, wsGo_frame_none uid j3 _ 0 h3]
    rfl

/-- Witness for claim C5 at concrete sessions: the match-in-second-frame
scenario and the 3-empty-frames exhaustion. -/
theorem claim_C5_witness :
    (fetch_count_via_websocket (("SSD-4").data) []).sent = [("all")]
  ∧ fetch_count_via_websocket (("SSD-4").data)
      (RecvEvent.fail :: RecvEvent.fail :: RecvEvent.fail :: [RecvEvent.fail]) =
      fetch_count_via_websocket (("SSD-4").data) [RecvEvent.fail, RecvEvent.fail, RecvEvent.fail]
  ∧ (fetch_count_via_websocket (("SSD-4").data)
      (RecvEvent.frame wsEmptyFrame :: RecvEvent.frame wsMatchFrame ::
        RecvEvent.fail :: [])).result = Except.ok (42, some 100)
  ∧ (fetch_count_via_websocket (("SSD-4").data)
      (RecvEvent.frame wsEmptyFrame :: RecvEvent.frame wsEmptyFrame ::
        RecvEvent.frame wsEmptyFrame :: [])).result = Except.error wsNotFoundMsg :=
  ⟨claim_C5.1 _ [],
   claim_C5.2.1 _ RecvEvent.fail RecvEvent.fail RecvEvent.fail [RecvEvent.fail],
   claim_C5.2.2.1 _ wsEmptyFrame wsMatchFrame RecvEvent.fail [] (42, some 100)
     (by decide) (by decide),
   claim_C5.2.2.2.1 _ wsEmptyFrame wsEmptyFrame wsEmptyFrame []
     (by decide) (by decide) (by decide)⟩

/-- Claim C6: `_extract_uid_from_html` returns the capture of the leftmost
occurrence of `SSD-<digits>` immediately followed by `_visitornumber` in the
raw HTML (the first position whose match succeeds while every earlier
position fails), and `none` when no position matches; concrete positive and
negative documents included. -/
theorem claim_C6 :
    (∀ html, (∀ i, matchUidAt (html.drop i) = none) → extract_uid_from_html html = none)
  ∧ (∀ html i u, matchUidAt (html.drop i) = some u →
      (∀ j, j < i → matchUidAt (html.drop j) = none) →
      extract_uid_from_html html = some u)
  ∧ extract_uid_from_html (("no token SSD-5_visitor here").data) = none
  ∧ extract_uid_from_html (("a SSD-12_visitornumber b SSD-7_visitornumber").data) =
      some (("SSD-12").data) := by
  refine ⟨?_, ?_, by decide, by decide⟩
  · intro html
    induction html with
    | nil => intro _; rfl
    | cons c rest ih =>
      intro h
      have h0 := h 0
      rw [List.drop_zero] at h0
      show UID_IN_MARKUP_PATTERN_search (c :: rest) = none
      simp only [UID_IN_MARKUP_PATTERN_search, h0]
      refine ih (fun i => ?_)
      have hi := h (i + 1)
      rwa [List.drop_succ_cons] at hi
  · intro html
    induction html with
    | nil =>
      intro i u hm _
      rw [List.drop_nil] at hm
      rw [matchUidAtNil] at hm
      exact Option.noConfusion hm
    | cons c rest ih =>
      intro i u hm hlt
      cases i with
      | zero =>
        rw [List.drop_zero] at hm
        show UID_IN_MARKUP_PATTERN_search (c :: rest) = some u
        simp only [UID_IN_MARKUP_PATTERN_search, hm]
      | succ i' =>
        have h0 : matchUidAt (c :: rest) = none := by
          have := hlt 0 (Nat.succ_pos i')
          rwa [List.drop_zero] at this
        show UID_IN_MARKUP_PATTERN_search (c :: rest) = some u
        simp only [UID_IN_MARKUP_PATTERN_search, h0]
        refine ih i' u ?_ ?_
        · rwa [List.drop_succ_cons] at hm
        · intro j hj
          have := hlt (j + 1) (Nat.succ_lt_succ hj)
          rwa [List.drop_succ_cons] at this

/-- Witness for claim C6 at concrete documents. -/
theorem claim_C6_witness :
    extract_uid_from_html (("xy").data) = none
  ∧ extract_uid_from_html (("a SSD-12_visitornumber b").data) = some (("SSD-12").data) :=
  ⟨claim_C6.1 (("xy").data) (matchUidAtAll _ (by decide)),
   claim_C6.2.1 (("a SSD-12_visitornumber b").data) 2 (("SSD-12").data)
     (by decide) (by decide)⟩

/-- Claim C7: `_parse_guest_count` is total — on every input it either
returns a parsed `GuestCount` or signals exactly the NotFound error, the
latter precisely when neither Strategy A nor Strategy B matches; the error
message is always the NotFound one, so capacity absence never causes a
failure. -/
theorem claim_C7 (html : List Char) :
    ((COUNT_ID_PATTERN_search html = none ∧
      COUNT_PATTERN_search (extract_visible_text html) = none) ↔
      parse_guest_count html = Except.error notFoundMsg)
  ∧ (∀ e, parse_guest_count html = Except.error e → e = notFoundMsg)
  ∧ ((∃ gc, parse_guest_count html = Except.ok gc) ∨
      parse_guest_count html = Except.error notFoundMsg) := by
  refine ⟨⟨?_, ?_⟩, ?_, ?_⟩
  · rintro ⟨h1, h2⟩
    simp only [parse_guest_count, h1, h2]
  · intro h
    by_cases h1 : COUNT_ID_PATTERN_search html = none
    · by_cases h2 : COUNT_PATTERN_search (extract_visible_text html) = none
      · exact ⟨h1, h2⟩
      · rcases Option.ne_none_iff_exists'.mp h2 with ⟨p, hp⟩
        simp only [parse_guest_count, h1, hp] at h
        exact Except.noConfusion h
    · rcases Option.ne_none_iff_exists'.mp h1 with ⟨ds, hds⟩
      simp only [parse_guest_count, hds] at h
      exact Except.noConfusion h
  · intro e h
    by_cases h1 : COUNT_ID_PATTERN_search html = none
    · by_cases h2 : COUNT_PATTERN_search (extract_visible_text html) = none
      · simp only [parse_guest_count, h1, h2] at h
        exact (Except.error.inj h).symm
      · rcases Option.ne_none_iff_exists'.mp h2 with ⟨p, hp⟩
        simp only [parse_guest_count, h1, hp] at h
        exact Except.noConfusion h
    · rcases Option.ne_none_iff_exists'.mp h1 with ⟨ds, hds⟩
      simp only [parse_guest_count, hds] at h
      exact Except.noConfusion h
  · by_cases h1 : COUNT_ID_PATTERN_search html = none
    · by_cases h2 : COUNT_PATTERN_search (extract_visible_text html) = none
      · right; simp only [parse_guest_count, h1, h2]
      · rcases Option.ne_none_iff_exists'.mp h2 with ⟨p, hp⟩
        left
        refine ⟨⟨(p.1 : Int), Option.map Int.ofNat (CAPACITY_PATTERN_search (p.2.take 100))⟩, ?_⟩
        simp only [parse_guest_count, h1, hp]
    · rcases Option.ne_none_iff_exists'.mp h1 with ⟨ds, hds⟩
      left
      refine ⟨⟨(digitsToNat ds : Int), Option.map Int.ofNat (CAPACITY_PATTERN_search
        (match findSub (Nat.repr (digitsToNat ds)).data (extract_visible_text html) with
         | some i => ((extract_visible_text html).drop i).take 100
         | none => extract_visible_text html))⟩, ?_⟩
      simp only [parse_guest_count, hds]

/-- Witness for claim C7 at a concrete no-match document. -/
theorem claim_C7_witness :
    parse_guest_count (("Keine Angaben").data) = Except.error notFoundMsg :=
  (claim_C7 (("Keine Angaben").data)).1.mp ⟨by decide, by decide⟩

/-- Claim C8: when the HTTP fetch fails, `fetch_guest_count_async` signals
the fetch-failure error immediately, and the outcome does not depend on the
feed events or the debug-write outcome — the fallback path is never
entered. -/
theorem claim_C8 (w : FetchWorld) (h : w.httpResult = Except.error ()) :
    fetch_guest_count_async w = Except.error fetchFailedMsg
  ∧ ∀ ev dmp, fetch_guest_count_async ⟨w.httpResult, ev, dmp⟩ = Except.error fetchFailedMsg := by
  constructor
  · simp only [fetch_guest_count_async, h]
  · intro ev dmp
    simp only [fetch_guest_count_async, h]

/-- Witness for claim C8 at a concrete failed fetch. -/
theorem claim_C8_witness :
    fetch_guest_count_async ⟨Except.error (), [], true⟩ = Except.error fetchFailedMsg :=
  (claim_C8 ⟨Except.error (), [], true⟩ rfl).1

/-- Claim C9: when parsing fails and no identifier can be recovered from the
page, `fetch_guest_count_async` surfaces the original parse error, and the
best-effort debug write never changes the returned result: the outcome is the
same whether the write succeeds or fails. -/
theorem claim_C9 (html : List Char) (msg : String) (ev : List RecvEvent)
    (h1 : parse_guest_count html = Except.error msg)
    (h2 : extract_uid_from_html html = none) :
    (∀ dmp, fetch_guest_count_async ⟨Except.ok html, ev, dmp⟩ = Except.error msg)
  ∧ fetch_guest_count_async ⟨Except.ok html, ev, true⟩ =
      fetch_guest_count_async ⟨Except.ok html, ev, false⟩ := by
  constructor
  · intro dmp
    simp only [fetch_guest_count_async, h1, h2]
  · simp only [fetch_guest_count_async, h1, h2]

/-- Witness for claim C9 at the spec's concrete no-match document. -/
theorem claim_C9_witness :
    fetch_guest_count_async ⟨Except.ok (("Keine Angaben verfügbar").data), [], true⟩ =
      fetch_guest_count_async ⟨Except.ok (("Keine Angaben verfügbar").data), [], false⟩
  ∧ fetch_guest_count_async ⟨Except.ok (("Keine Angaben verfügbar").data), [], false⟩ =
      Except.error notFoundMsg :=
  ⟨(claim_C9 _ notFoundMsg [] (by decide) (by decide)).2,
   (claim_C9 _ notFoundMsg [] (by decide) (by decide)).1 false⟩

/-- Claim C10: a frame that is valid JSON but not an array, or an array with
no record carrying the requested uid, is silently skipped and consumes one of
the 3 receive attempts; a failing receive (JSON parse error, connection error
or per-frame timeout) aborts the session with the WebSocket failure before
the budget is exhausted. -/
theorem claim_C10 :
    (∀ uid j rest n, ws_recv_once uid j = none →
       wsGo uid (n + 1) (RecvEvent.frame j :: rest) = wsGo uid n rest)
  ∧ (∀ uid j, (∀ xs, j ≠ Json.arr xs) → ws_recv_once uid j = none)
  ∧ (∀ uid items, (∀ it ∈ items, itemUidMatches uid it = false) →
       ws_recv_once uid (Json.arr items) = none)
  ∧ (∀ uid rest n, wsGo uid (n + 1) (RecvEvent.fail :: rest) = Except.error wsFailedMsg) := by
  refine ⟨?_, ?_, ?_, ?_⟩
  · exact wsGo_frame_none
  · intro uid j h
    cases j with
    | arr xs => exact absurd rfl (h xs)
    | null => rfl
    | bool b => rfl
    | num n => rfl
    | str s => rfl
    | obj fields => rfl
  · intro uid items h
    show wsScanItems uid items = none
    exact wsScanItemsNoMatch uid items h
  · intro uid rest n; rfl

/-- Witness for claim C10 at concrete frames and sessions. -/
theorem claim_C10_witness :
    wsGo (("SSD-4").data) 3 [RecvEvent.frame (Json.num 1), RecvEvent.fail] =
      wsGo (("SSD-4").data) 2 [RecvEvent.fail]
  ∧ ws_recv_once (("SSD-4").data) (Json.obj []) = none
  ∧ ws_recv_once (("SSD-4").data) (Json.arr [Json.num 1]) = none
  ∧ wsGo (("SSD-4").data) 2 [RecvEvent.fail] = Except.error wsFailedMsg :=
  ⟨claim_C10.1 _ (Json.num 1) [RecvEvent.fail] 2 (by decide),
   claim_C10.2.1 _ (Json.obj []) (fun xs h => Json.noConfusion h),
   claim_C10.2.2.1 _ [Json.num 1]
     (by
       intro it hit
       rw [List.mem_singleton] at hit
       rw [hit]
       rfl),
   claim_C10.2.2.2 _ [] 1⟩
